import Mathlib

set_option maxHeartbeats 1000000

/-! Shallow embedding of the SleepNumber stats collector (src/main.go): the
configuration model, the InfluxDB sink construction (InfluxConnect), the
metric-point mapping and one iteration of the polling goroutine's loop,
together with theorems about the program's behaviour.

Modelling choices: Go machine integers are modelled as Nat / Int, with the
64-bit wraparound of time.Duration arithmetic made explicit (wrap64) where it
matters; time is a logical clock in nanoseconds that advances by one tick at
each time.Now sampling and by the effective slept amount at each time.Sleep;
fallible API calls return Except String; the side effects of one loop
iteration (log lines, login attempts, point writes, sleeps) are recorded as an
explicit action trace. -/

/-- InfluxDB section of the YAML configuration (struct InfluxDB,
src/main.go:27-39). The Go field MeasurementPrefix is named measurementPre
here; FlushInterval (Go uint) is a Nat. -/
structure InfluxDB where
  address : String
  username : String
  password : String
  measurementPre : String
  database : String
  retentionPolicy : String
  token : String
  organization : String
  bucket : String
  skipVerifySsl : Bool
  flushInterval : Nat
deriving DecidableEq

/-- Top-level configuration (struct Configuration, src/main.go:20-25).
PollInterval, a Go time.Duration (int64), is modelled as a Nat; the code
multiplies it by time.Second before use. -/
structure Configuration where
  sleepIQUsername : String
  sleepIQPassword : String
  pollInterval : Nat
  influxDB : InfluxDB
deriving DecidableEq

/-- BoolToInt (src/main.go:61-67): retVal starts at int8 0 and is set to 1
when val is true. The int8 is modelled as Int (values are only 0 and 1). -/
def BoolToInt (val : Bool) : Int :=
  let retVal : Int := 0
  let retVal := if val then 1 else retVal
  retVal

/-- Error string of InfluxWriteConfigError (src/main.go:69-73). -/
def influxWriteConfigErrorMsg : String :=
  "must configure at least one of bucket or database/retention policy"

/-- The client options InfluxConnect builds (src/main.go:98-102): the flush
interval in milliseconds passed to SetFlushInterval and the TLS
InsecureSkipVerify flag. -/
structure InfluxOptions where
  flushIntervalMs : Nat
  insecureSkipVerify : Bool
deriving DecidableEq

/-- Successful result of InfluxConnect: the (possibly updated) configuration
the caller's pointer now sees, the computed auth string, the write destination
handed to client.WriteAPI, and the client options. -/
structure InfluxConnectOk where
  config : Configuration
  auth : String
  writeDest : String
  options : InfluxOptions
deriving DecidableEq

/-- Replace exactly the FlushInterval field of the configuration, keeping
every other field: models the in-place mutation
config.InfluxDB.FlushInterval = 30 of src/main.go:95. -/
def setFlushInterval (config : Configuration) (n : Nat) : Configuration :=
  ⟨config.sleepIQUsername, config.sleepIQPassword, config.pollInterval,
   ⟨config.influxDB.address, config.influxDB.username, config.influxDB.password,
    config.influxDB.measurementPre, config.influxDB.database,
    config.influxDB.retentionPolicy, config.influxDB.token,
    config.influxDB.organization, config.influxDB.bucket,
    config.influxDB.skipVerifySsl, n⟩⟩

/-- The write-destination selection of InfluxConnect (src/main.go:85-92):
the bucket when non-empty, else database/retentionPolicy when both are
non-empty, else none (the configuration-error case). -/
def influxWriteDest (config : Configuration) : Option String :=
  if config.influxDB.bucket ≠ "" then some config.influxDB.bucket
  else if config.influxDB.database ≠ "" ∧ config.influxDB.retentionPolicy ≠ "" then
    some (config.influxDB.database ++ "/" ++ config.influxDB.retentionPolicy)
  else none

/-- InfluxConnect (src/main.go:75-108): auth-string selection, write
destination validation (returning the configuration error when neither a
bucket nor a complete database/retention-policy pair is set), the
FlushInterval default of 30 applied when the configured value is 0, and the
client options with flush interval 1000 * FlushInterval milliseconds. The
FlushInterval mutation happens after the destination check, so a failing
InfluxConnect leaves the configuration untouched. -/
def InfluxConnect (config : Configuration) : Except String InfluxConnectOk :=
  let auth : String :=
    if config.influxDB.token ≠ "" then config.influxDB.token
    else if config.influxDB.username ≠ "" ∧ config.influxDB.password ≠ "" then
      config.influxDB.username ++ ":" ++ config.influxDB.password
    else ""
  match influxWriteDest config with
  | none => Except.error influxWriteConfigErrorMsg
  | some writeDest =>
      let config1 : Configuration :=
        if config.influxDB.flushInterval = 0 then setFlushInterval config 30
        else config
      let options : InfluxOptions :=
        ⟨1000 * config1.influxDB.flushInterval, config1.influxDB.skipVerifySsl⟩
      Except.ok ⟨config1, auth, writeDest, options⟩

/-- Whether an Except value is a success. -/
def okB {α : Type} (r : Except String α) : Bool :=
  match r with
  | Except.ok _ => true
  | Except.error _ => false

/-- Outcome of main's startup sequence (src/main.go:110-141): configuration
load, initial SleepIQ login, then InfluxConnect; each failure is a log.Fatal
(process exit) happening before the polling goroutine is started. -/
inductive StartupOutcome where
  | fatalConfigLoad
  | fatalLogin
  | fatalInflux
  | running (r : InfluxConnectOk)
deriving DecidableEq

/-- Main's startup sequence (src/main.go:110-141), parameterised by the
result of LoadConfiguration and by whether the initial login succeeds: any
failure exits fatally before the poll loop starts; only on full success does
the process reach the polling goroutine, carrying InfluxConnect's result. -/
def mainStartup (configResult : Except String Configuration)
    (initialLoginOk : Bool) : StartupOutcome :=
  match configResult with
  | Except.error _ => StartupOutcome.fatalConfigLoad
  | Except.ok config =>
      if initialLoginOk then
        match InfluxConnect config with
        | Except.error _ => StartupOutcome.fatalInflux
        | Except.ok r => StartupOutcome.running r
      else StartupOutcome.fatalLogin

/-- One second in nanoseconds (Go time.Second). -/
def timeSecond : Nat := 1000000000

/-- Two's-complement wraparound of Go int64 arithmetic. -/
def wrap64 (n : Int) : Int := (n + 2 ^ 63) % 2 ^ 64 - 2 ^ 63

/-- timeRemaining := config.PollInterval*time.Second - time.Since(pollStartTime)
(src/main.go:327 and the three identical error-path copies), as int64
nanoseconds, given the elapsed nanoseconds since the cycle start. -/
def timeRemainingOf (pollInterval elapsed : Nat) : Int :=
  wrap64 ((pollInterval : Int) * timeSecond - elapsed)

/-- Effective time slept by time.Sleep(d): by the documented Go contract a
negative or zero duration returns immediately, so the effective sleep is
max d 0, i.e. Int.toNat d. -/
def sleepDuration (d : Int) : Nat := d.toNat

/-- A bed as returned by siq.Beds(): the fields the poll loop reads
(BedID and the four tag dimensions). -/
structure Bed where
  bedID : String
  size : String
  name : String
  generation : String
  model : String
deriving DecidableEq

/-- Per-side entry of a family-status bed (LeftSide / RightSide): occupancy
flag, sleep number and pressure. The numeric field types of the SleepIQ
library are immaterial to the claims and modelled as Int. -/
structure SideStatus where
  isInBed : Bool
  sleepNumber : Int
  pressure : Int
deriving DecidableEq

/-- One entry of the family-status result (siq.BedFamilyStatus().Beds). -/
structure FamilyBed where
  bedID : String
  leftSide : SideStatus
  rightSide : SideStatus
deriving DecidableEq

/-- Foundation status of one bed (siq.BedFoundationStatus): the Type tag is
named ftype; non-boolean field types are immaterial to the claims and
modelled as String. -/
structure Foundation where
  ftype : String
  isMoving : Bool
  currentPositionPresetRight : String
  currentPositionPresetLeft : String
  rightHeadPosition : String
  leftHeadPosition : String
  rightFootPosition : String
  leftFootPosition : String
deriving DecidableEq

/-- Foot-warmer status of one bed (siq.BedFootWarmerStatus); the status
values are modelled as Int. -/
structure FootWarmer where
  footWarmingStatusLeft : Int
  footWarmingStatusRight : Int
deriving DecidableEq

/-- A typed field value of an InfluxDB point (the interface values of the
fields map passed to influx.NewPoint). -/
inductive FieldValue where
  | intVal (n : Int)
  | strVal (s : String)
  | boolVal (b : Bool)
deriving DecidableEq

/-- An InfluxDB point (influx.NewPoint): measurement name, tag set, field
set, timestamp. The Go tag and field maps are modelled as association lists
in the literal order of the source; keys are distinct. -/
structure Point where
  measurement : String
  tags : List (String × String)
  fields : List (String × FieldValue)
  timestamp : Nat
deriving DecidableEq

/-- The bed_foundation_state point built at src/main.go:241-260. -/
def foundationPoint (bed : Bed) (foundation : Foundation) (ts : Nat) : Point :=
  ⟨"bed_foundation_state",
   [("size", bed.size), ("name", bed.name), ("generation", bed.generation),
    ("model", bed.model), ("type", foundation.ftype)],
   [("is_moving", FieldValue.intVal (BoolToInt foundation.isMoving)),
    ("current_position_preset_right",
      FieldValue.strVal foundation.currentPositionPresetRight),
    ("current_position_preset_left",
      FieldValue.strVal foundation.currentPositionPresetLeft),
    ("right_head_position", FieldValue.strVal foundation.rightHeadPosition),
    ("left_head_position", FieldValue.strVal foundation.leftHeadPosition),
    ("right_foot_position", FieldValue.strVal foundation.rightFootPosition),
    ("left_foot_position", FieldValue.strVal foundation.leftFootPosition)],
   ts⟩

/-- The bed_footwarmers_state point built at src/main.go:286-299. -/
def footwarmersPoint (bed : Bed) (fw : FootWarmer) (ts : Nat) : Point :=
  ⟨"bed_footwarmers_state",
   [("size", bed.size), ("name", bed.name), ("generation", bed.generation),
    ("model", bed.model)],
   [("foot_warming_status_left", FieldValue.intVal fw.footWarmingStatusLeft),
    ("foot_warming_status_right", FieldValue.intVal fw.footWarmingStatusRight)],
   ts⟩

/-- The bed_sleeper_state point built at src/main.go:304-321. -/
def sleeperPoint (bed : Bed) (familyStatusBed : FamilyBed) (ts : Nat) : Point :=
  ⟨"bed_sleeper_state",
   [("size", bed.size), ("name", bed.name), ("generation", bed.generation),
    ("model", bed.model)],
   [("left_sleeper_is_in_bed",
      FieldValue.intVal (BoolToInt familyStatusBed.leftSide.isInBed)),
    ("right_sleeper_is_in_bed",
      FieldValue.intVal (BoolToInt familyStatusBed.rightSide.isInBed)),
    ("left_sleep_number", FieldValue.intVal familyStatusBed.leftSide.sleepNumber),
    ("right_sleep_number", FieldValue.intVal familyStatusBed.rightSide.sleepNumber),
    ("left_pressure", FieldValue.intVal familyStatusBed.leftSide.pressure),
    ("right_pressure", FieldValue.intVal familyStatusBed.rightSide.pressure)],
   ts⟩

/-- The inner family-status join loop of src/main.go:302-324: one
bed_sleeper_state point per family-status entry whose BedID equals the
current bed's BedID, all carrying the shared family-status timestamp. -/
def sleeperPointsFor (bed : Bed) (tsFamily : Nat) : List FamilyBed → List Point
  | [] => []
  | familyStatusBed :: rest =>
      if familyStatusBed.bedID == bed.bedID then
        sleeperPoint bed familyStatusBed tsFamily ::
          sleeperPointsFor bed tsFamily rest
      else sleeperPointsFor bed tsFamily rest

/-- Behaviour of the SleepIQ client during one loop iteration: the result of
each query operation and whether a (re-)login attempt succeeds. -/
structure SleepIQApi where
  bedsResult : Except String (List Bed)
  familyResult : Except String (List FamilyBed)
  foundationResult : String → Except String Foundation
  footWarmerResult : String → Except String FootWarmer
  loginOk : Bool

/-- One observable side effect of the polling goroutine. -/
inductive PollAction where
  | logError (msg : String)
  | logInfo (msg : String)
  | login
  | writePoint (p : Point)
  | sleepFor (d : Int)
  | fatal
deriving DecidableEq

/-- The marker substring the code looks for in error text
(strings.Contains(err.Error(), "Session is invalid")). -/
def sessionInvalidMarker : String := "Session is invalid"

/-- Whether the first character list is an initial segment of the second. -/
def charsInit : List Char → List Char → Bool
  | [], _ => true
  | _ :: _, [] => false
  | a :: as, b :: bs => a == b && charsInit as bs

/-- Whether the first character list occurs contiguously inside the second. -/
def charsSub : List Char → List Char → Bool
  | pat, [] => pat.isEmpty
  | pat, b :: bs => charsInit pat (b :: bs) || charsSub pat bs

/-- strings.Contains(s, pat). -/
def strContainsSub (s pat : String) : Bool := charsSub pat.toList s.toList

/-- The error-handling block repeated verbatim at each of the four query
sites (src/main.go:168-184, 193-210, 219-239, 264-280): log the error; when
its text contains the session-invalid marker, log and attempt exactly one
re-login, a failed re-login being log.Fatal (process exit). Returns the
actions performed and whether the process died. -/
def handleQueryError (api : SleepIQApi) (msg : String) (err : String) :
    List PollAction × Bool :=
  if strContainsSub err sessionInvalidMarker then
    if api.loginOk then
      ([PollAction.logError msg,
        PollAction.logInfo "refreshing login due to invalid session",
        PollAction.login], false)
    else
      ([PollAction.logError msg,
        PollAction.logInfo "refreshing login due to invalid session",
        PollAction.login, PollAction.fatal], true)
  else ([PollAction.logError msg], false)

/-- Running state of the device loop of one cycle: actions so far, the
logical clock, and whether log.Fatal has ended the process. -/
structure LoopSt where
  actions : List PollAction
  clock : Nat
  fatal : Bool
deriving DecidableEq

/-- Body of the device loop for one bed (src/main.go:216-325). Note two
faithfully kept quirks of the source: the footwarmer error path logs the
foundation message (a copy-paste at src/main.go:268), and both error paths
sleep the remaining interval and then execute Go's continue, which targets
the innermost loop — the bed loop — so execution proceeds with the next bed
of the same cycle rather than abandoning the cycle. -/
def processBed (api : SleepIQApi) (cfg : Configuration) (startClock : Nat)
    (familyBeds : List FamilyBed) (tsFamily : Nat) (st : LoopSt) (bed : Bed) :
    LoopSt :=
  if st.fatal then st
  else
    match api.foundationResult bed.bedID with
    | Except.error e =>
        let ha := handleQueryError api "failed to query bed foundation status" e
        if ha.2 then ⟨st.actions ++ ha.1, st.clock, true⟩
        else
          let tr := timeRemainingOf cfg.pollInterval (st.clock - startClock)
          ⟨st.actions ++ ha.1 ++ [PollAction.sleepFor tr],
           st.clock + sleepDuration tr, false⟩
    | Except.ok foundation =>
        let tsFoundation := st.clock
        let p1 := foundationPoint bed foundation tsFoundation
        match api.footWarmerResult bed.bedID with
        | Except.error e =>
            let ha :=
              handleQueryError api "failed to query bed foundation status" e
            if ha.2 then
              ⟨st.actions ++ [PollAction.writePoint p1] ++ ha.1,
               st.clock + 1, true⟩
            else
              let tr :=
                timeRemainingOf cfg.pollInterval (st.clock + 1 - startClock)
              ⟨st.actions ++ [PollAction.writePoint p1] ++ ha.1 ++
                 [PollAction.sleepFor tr],
               st.clock + 1 + sleepDuration tr, false⟩
        | Except.ok fw =>
            let tsFootwarmers := st.clock + 1
            let p2 := footwarmersPoint bed fw tsFootwarmers
            ⟨st.actions ++ [PollAction.writePoint p1, PollAction.writePoint p2]
               ++ (sleeperPointsFor bed tsFamily familyBeds).map
                    PollAction.writePoint,
             st.clock + 2, false⟩

/-- The device loop (for _, bed := range beds.Beds, src/main.go:216-325);
once log.Fatal has fired, nothing further runs. -/
def processBeds (api : SleepIQApi) (cfg : Configuration) (startClock : Nat)
    (familyBeds : List FamilyBed) (tsFamily : Nat) :
    List Bed → LoopSt → LoopSt
  | [], st => st
  | bed :: rest, st =>
      processBeds api cfg startClock familyBeds tsFamily rest
        (processBed api cfg startClock familyBeds tsFamily st bed)

/-- Result of one iteration of the polling goroutine's loop. -/
structure CycleResult where
  actions : List PollAction
  clock : Nat
  fatalStop : Bool
deriving DecidableEq

/-- One iteration of the polling goroutine's infinite loop
(src/main.go:161-331): record the cycle start time, query the bed list,
query family status and sample its shared timestamp, run the device loop,
then sleep for the remaining part of the configured interval. Each
query-error path runs the shared handler and then sleeps and starts the next
cycle (Go continue on the outer loop). -/
def runCycle (api : SleepIQApi) (cfg : Configuration) (clock0 : Nat) :
    CycleResult :=
  let pollStartTime := clock0
  let clock := clock0 + 1
  match api.bedsResult with
  | Except.error e =>
      let ha := handleQueryError api "failed to query beds" e
      if ha.2 then ⟨ha.1, clock, true⟩
      else
        let tr := timeRemainingOf cfg.pollInterval (clock - pollStartTime)
        ⟨ha.1 ++ [PollAction.sleepFor tr], clock + sleepDuration tr, false⟩
  | Except.ok beds =>
      let tsFamily := clock
      let clock := clock + 1
      match api.familyResult with
      | Except.error e =>
          let ha := handleQueryError api "failed to query family status beds" e
          if ha.2 then ⟨ha.1, clock, true⟩
          else
            let tr := timeRemainingOf cfg.pollInterval (clock - pollStartTime)
            ⟨ha.1 ++ [PollAction.sleepFor tr], clock + sleepDuration tr, false⟩
      | Except.ok familyBeds =>
          let st := processBeds api cfg pollStartTime familyBeds tsFamily beds
            ⟨[], clock, false⟩
          if st.fatal then ⟨st.actions, st.clock, true⟩
          else
            let tr := timeRemainingOf cfg.pollInterval
              (st.clock - pollStartTime)
            ⟨st.actions ++ [PollAction.sleepFor tr],
             st.clock + sleepDuration tr, false⟩

/-- The point carried by a writePoint action, if any. -/
def actionPoint : PollAction → Option Point
  | PollAction.writePoint p => some p
  | _ => none

/-- Points enqueued by a trace (the writeAPI.WritePoint calls, in order). -/
def writtenPoints (acts : List PollAction) : List Point :=
  acts.filterMap actionPoint

/-- The points of a list with the given measurement name. -/
def pointsWithMeasurement (m : String) (ps : List Point) : List Point :=
  ps.filter (fun p => p.measurement == m)

/-- Number of points with the given measurement enqueued by a trace. -/
def countMeasurement (m : String) (acts : List PollAction) : Nat :=
  (pointsWithMeasurement m (writtenPoints acts)).length

/-- Whether an action is a (re-)login attempt. -/
def isLoginAction : PollAction → Bool
  | PollAction.login => true
  | _ => false

/-- Number of login attempts in a trace. -/
def loginAttemptCount (acts : List PollAction) : Nat :=
  (acts.filter isLoginAction).length

/-- Number of family-status entries whose BedID equals the given id. -/
def countMatching (familyBeds : List FamilyBed) (id : String) : Nat :=
  (familyBeds.filter (fun e => e.bedID == id)).length

/-- Total sleeper-point count predicted for a device list: one point per
(device, matching family-status entry) pair. -/
def sumMatches (familyBeds : List FamilyBed) (beds : List Bed) : Nat :=
  (beds.map (fun bed => countMatching familyBeds bed.bedID)).sum

/-- Whether every per-device sub-query of the cycle succeeds for every
listed bed. -/
def subQueriesOk (api : SleepIQApi) (beds : List Bed) : Bool :=
  beds.all (fun bed =>
    okB (api.foundationResult bed.bedID) && okB (api.footWarmerResult bed.bedID))

/-- One observable step of the main goroutine around shutdown. -/
inductive MainAction where
  | logInfo (msg : String)
  | flushSink
  | closeClient
  | startPollCycle
deriving DecidableEq

/-- The sequence the main goroutine executes once a termination signal is
received (src/main.go:333-338), including the deferred calls registered at
src/main.go:142-143, which run in last-in-first-out order when main
returns: the explicit writeAPI.Flush(), then the deferred writeAPI.Flush(),
then the deferred influxClient.Close(). The polling goroutine itself never
observes the signal; it is ended only by the process exit that follows this
sequence. -/
def mainShutdownActions : List MainAction :=
  [MainAction.logInfo "caught signal, flushing data to InfluxDB",
   MainAction.flushSink,
   MainAction.flushSink,
   MainAction.closeClient]

/-- Number of sink flush invocations in a main-goroutine trace. -/
def flushCount (acts : List MainAction) : Nat :=
  (acts.filter (fun a => a == MainAction.flushSink)).length

/-- Number of poll-cycle starts in a main-goroutine trace. -/
def cycleStartCount (acts : List MainAction) : Nat :=
  (acts.filter (fun a => a == MainAction.startPollCycle)).length

/-- The actions the device loop appends on the all-success path, starting
with the logical clock at c: per bed a foundation point at its own sampled
timestamp, a footwarmer point at the next sample, and the sleeper points of
the family-status join, all at the shared family timestamp. -/
def okBedActions (api : SleepIQApi) (familyBeds : List FamilyBed)
    (tsFamily : Nat) : List Bed → Nat → List PollAction
  | [], _ => []
  | bed :: rest, c =>
      match api.foundationResult bed.bedID, api.footWarmerResult bed.bedID with
      | Except.ok f, Except.ok w =>
          PollAction.writePoint (foundationPoint bed f c)
            :: PollAction.writePoint (footwarmersPoint bed w (c + 1))
            :: ((sleeperPointsFor bed tsFamily familyBeds).map
                  PollAction.writePoint
                ++ okBedActions api familyBeds tsFamily rest (c + 2))
      | _, _ => []

/-- The per-device timestamps sampled by the all-success device loop started
at clock c: two fresh samples per bed. -/
def tsList : List Bed → Nat → List Nat
  | [], _ => []
  | _ :: rest, c => c :: (c + 1) :: tsList rest (c + 2)

/-- Sample bed used by concrete instances of the theorems below. -/
def bedOne : Bed := ⟨"bed1", "KING", "BedOne", "g1", "m1"⟩

/-- Second sample bed. -/
def bedTwo : Bed := ⟨"bed2", "QUEEN", "BedTwo", "g2", "m2"⟩

/-- Sample per-side occupancy data. -/
def sideOccupied : SideStatus := ⟨true, 35, 100⟩

/-- Sample per-side vacancy data. -/
def sideEmpty : SideStatus := ⟨false, 40, 0⟩

/-- Family-status entry matching bedOne. -/
def famOne : FamilyBed := ⟨"bed1", sideOccupied, sideEmpty⟩

/-- A second, distinct family-status entry that also matches bedOne. -/
def famOneDup : FamilyBed := ⟨"bed1", sideEmpty, sideOccupied⟩

/-- Family-status entry matching bedTwo. -/
def famTwo : FamilyBed := ⟨"bed2", sideOccupied, sideEmpty⟩

/-- Sample foundation status. -/
def fndOne : Foundation := ⟨"t", true, "pr", "pl", "rh", "lh", "rf", "lf"⟩

/-- Sample footwarmer status. -/
def fwmOne : FootWarmer := ⟨1, 2⟩

/-- Sample configuration whose sink destination is a bucket; the poll
interval is 0 so that concrete traces stay small. -/
def cfgBucketOnly : Configuration :=
  ⟨"u", "p", 0, ⟨"http://influx", "", "", "", "", "", "", "", "b", false, 30⟩⟩

/-- Configuration with no bucket and no database/retention-policy pair. -/
def cfgNoDest : Configuration :=
  ⟨"u", "p", 60, ⟨"http://influx", "", "", "", "", "", "", "", "", false, 30⟩⟩

/-- Configuration with a bucket and an unset (zero) FlushInterval. -/
def cfgFlushUnset : Configuration :=
  ⟨"u", "p", 60, ⟨"http://influx", "", "", "", "", "", "", "", "b", false, 0⟩⟩

/-- The value InfluxConnect returns on cfgFlushUnset. -/
def resFlushUnset : InfluxConnectOk :=
  ⟨setFlushInterval cfgFlushUnset 30, "", "b", ⟨30000, false⟩⟩

/-- Client behaviour with one bed and a family status whose identifier
matches it twice, every query succeeding. -/
def apiDupFamily : SleepIQApi :=
  ⟨Except.ok [bedOne], Except.ok [famOne, famOneDup],
   fun _ => Except.ok fndOne, fun _ => Except.ok fwmOne, true⟩

/-- Client behaviour with two beds and one matching family entry each,
every query succeeding. -/
def apiTwoBeds : SleepIQApi :=
  ⟨Except.ok [bedOne, bedTwo], Except.ok [famOne, famTwo],
   fun _ => Except.ok fndOne, fun _ => Except.ok fwmOne, true⟩

/-- Client behaviour where bedOne's foundation query fails with a
non-session error while every other query succeeds. -/
def apiFoundationFail : SleepIQApi :=
  ⟨Except.ok [bedOne, bedTwo], Except.ok [famTwo],
   fun id => if id == "bed1" then Except.error "remote error" else Except.ok fndOne,
   fun _ => Except.ok fwmOne, true⟩

/-- The session-invalid error text used by concrete instances. -/
def errSessionText : String := "Error: Session is invalid (EX01)"

/-- Client behaviour whose bed listing fails with a session-invalid error
and whose re-login attempt fails. -/
def apiSessionBad : SleepIQApi :=
  ⟨Except.error errSessionText, Except.ok [],
   fun _ => Except.ok fndOne, fun _ => Except.ok fwmOne, false⟩

/-- Client behaviour where bedOne's foundation query fails with a
session-invalid error while re-login and every other query succeed. -/
def apiSessionFoundation : SleepIQApi :=
  ⟨Except.ok [bedOne, bedTwo], Except.ok [famTwo],
   fun id => if id == "bed1" then Except.error errSessionText
     else Except.ok fndOne,
   fun _ => Except.ok fwmOne, true⟩

/-- Client behaviour where both beds' foundation queries fail with
session-invalid errors while re-login and every other query succeed. -/
def apiSessionBothBeds : SleepIQApi :=
  ⟨Except.ok [bedOne, bedTwo], Except.ok [famTwo],
   fun _ => Except.error errSessionText,
   fun _ => Except.ok fwmOne, true⟩

/-- Helper: the destination selection yields none exactly when the bucket is
empty and the database/retention-policy pair is incomplete. -/
theorem influxWriteDest_none_iff (cfg : Configuration) :
    influxWriteDest cfg = none ↔
      (cfg.influxDB.bucket = "" ∧
        (cfg.influxDB.database = "" ∨ cfg.influxDB.retentionPolicy = "")) := by
  unfold influxWriteDest
  split_ifs with h1 h2
  · simp [h1]
  · push_neg at h1
    simp [h1, h2.1, h2.2]
  · push_neg at h1
    push_neg at h2
    constructor
    · intro _
      refine ⟨h1, ?_⟩
      by_cases hd : cfg.influxDB.database = ""
      · exact Or.inl hd
      · exact Or.inr (h2 hd)
    · intro _
      rfl

/-- Helper: InfluxConnect fails exactly when the destination selection
yields none. -/
theorem influxConnect_fails_iff (cfg : Configuration) :
    okB (InfluxConnect cfg) = false ↔ influxWriteDest cfg = none := by
  unfold InfluxConnect
  cases h : influxWriteDest cfg <;> simp [h, okB]

/-- C4: at the end of every cycle the sleep duration is computed as the
configured interval minus the elapsed time, and whenever the elapsed time is
at least the interval the effective sleep is zero (time.Sleep returns
immediately on a non-positive duration), so the next cycle starts with no
wait. The bounds keep the int64 Duration arithmetic away from wraparound. -/
theorem sleep_duration_clamped (pollInterval elapsed : Nat)
    (hI : (pollInterval : Int) * timeSecond < 2 ^ 63)
    (hE : (elapsed : Int) ≤ 2 ^ 63) :
    timeRemainingOf pollInterval elapsed
      = (pollInterval : Int) * timeSecond - elapsed
    ∧ (pollInterval * timeSecond ≤ elapsed →
        sleepDuration (timeRemainingOf pollInterval elapsed) = 0) := by
  have hits : 0 ≤ (pollInterval : Int) * timeSecond := by positivity
  have he0 : (0 : Int) ≤ (elapsed : Int) := Int.natCast_nonneg _
  have hpow : (2 : Int) ^ 63 = 9223372036854775808 := by norm_num
  have hpow2 : (2 : Int) ^ 64 = 18446744073709551616 := by norm_num
  have h1 : timeRemainingOf pollInterval elapsed
      = (pollInterval : Int) * timeSecond - elapsed := by
    unfold timeRemainingOf wrap64
    rw [hpow, hpow2] at *
    have h2 : (0 : Int) ≤
        (pollInterval : Int) * timeSecond - elapsed + 9223372036854775808 := by
      omega
    have h3 : (pollInterval : Int) * timeSecond - elapsed + 9223372036854775808
        < 18446744073709551616 := by omega
    rw [Int.emod_eq_of_lt h2 h3]
    ring
  refine ⟨h1, fun hle => ?_⟩
  rw [h1]
  unfold sleepDuration
  have hc : ((pollInterval * timeSecond : Nat) : Int) ≤ (elapsed : Int) := by
    exact_mod_cast hle
  push_cast at hc
  omega

/-- Witness for C4 at the spec's test values: interval one second, elapsed
two seconds, no sleep. -/
theorem sleep_duration_clamped_witness :
    sleepDuration (timeRemainingOf 1 (2 * timeSecond)) = 0 :=
  (sleep_duration_clamped 1 (2 * timeSecond)
      (by norm_num [timeSecond]) (by norm_num [timeSecond])).2
    (by norm_num [timeSecond])

/-- C5 counterexample: on the signal path the sink flush is not invoked
exactly once — the explicit writeAPI.Flush() of src/main.go:337 and the
deferred writeAPI.Flush() of src/main.go:143 both run. -/
theorem shutdown_flush_not_once :
    ¬ flushCount mainShutdownActions = 1 := by decide

/-- C5 (amended): once a termination signal is received, the main
goroutine's shutdown sequence invokes the sink flush exactly twice (the
explicit call, then the deferred one) and itself starts no poll cycle; the
polling goroutine is ended only by the process exit that follows. -/
theorem shutdown_flush_twice_no_new_cycle :
    flushCount mainShutdownActions = 2
    ∧ cycleStartCount mainShutdownActions = 0 := by decide

/-- C6: sink construction returns the configuration error exactly when the
destination is absent (bucket empty and database/retention-policy pair
incomplete), and such a failure makes main exit fatally before the poll
loop starts. -/
theorem influx_destination_validation (cfg : Configuration) :
    (okB (InfluxConnect cfg) = false ↔
      (cfg.influxDB.bucket = "" ∧
        (cfg.influxDB.database = "" ∨ cfg.influxDB.retentionPolicy = "")))
    ∧ (okB (InfluxConnect cfg) = false →
        mainStartup (Except.ok cfg) true = StartupOutcome.fatalInflux) := by
  constructor
  · rw [influxConnect_fails_iff]
    exact influxWriteDest_none_iff cfg
  · intro h
    unfold mainStartup
    cases hic : InfluxConnect cfg with
    | error e => simp [hic]
    | ok r =>
        rw [hic] at h
        simp [okB] at h

/-- Witness for C6: a configuration with neither bucket nor database set
fails InfluxConnect and aborts startup before the poll loop. -/
theorem influx_destination_validation_witness :
    okB (InfluxConnect cfgNoDest) = false
    ∧ mainStartup (Except.ok cfgNoDest) true = StartupOutcome.fatalInflux := by
  have hf : okB (InfluxConnect cfgNoDest) = false := by decide
  exact ⟨hf, (influx_destination_validation cfgNoDest).2 hf⟩

/-- C9: a successful InfluxConnect leaves the caller's configuration equal
to the original except that a zero FlushInterval has been overwritten with
the default 30, and the client options carry 1000 * FlushInterval
milliseconds as flush interval (and the configured TLS flag). -/
theorem influxconnect_config_mutation (cfg : Configuration)
    (r : InfluxConnectOk) (h : InfluxConnect cfg = Except.ok r) :
    r.config = setFlushInterval cfg
        (if cfg.influxDB.flushInterval = 0 then 30
         else cfg.influxDB.flushInterval)
    ∧ r.options.flushIntervalMs = 1000 * r.config.influxDB.flushInterval
    ∧ r.options.insecureSkipVerify = cfg.influxDB.skipVerifySsl := by
  unfold InfluxConnect at h
  cases hd : influxWriteDest cfg with
  | none =>
      rw [hd] at h
      simp at h
  | some w =>
      rw [hd] at h
      injection h with h'
      subst h'
      by_cases hf : cfg.influxDB.flushInterval = 0 <;>
        simp [hf, setFlushInterval]

/-- Witness for C9: on a configuration with FlushInterval 0 the returned
configuration has FlushInterval 30 and the options carry 30000 ms. -/
theorem influxconnect_config_mutation_witness :
    InfluxConnect cfgFlushUnset = Except.ok resFlushUnset
    ∧ resFlushUnset.config = setFlushInterval cfgFlushUnset 30
    ∧ resFlushUnset.options.flushIntervalMs
        = 1000 * resFlushUnset.config.influxDB.flushInterval := by
  have h : InfluxConnect cfgFlushUnset = Except.ok resFlushUnset := by rfl
  have hm := influxconnect_config_mutation cfgFlushUnset resFlushUnset h
  exact ⟨h, by simpa using hm.1, hm.2.1⟩

/-- Helper: a query error whose text contains the session-invalid marker
causes the shared handler (used verbatim at all four query sites) to make
exactly one immediate re-login attempt for that occurrence, the process
dying exactly when that attempt fails; when the bed listing fails this way,
the cycle enqueues no points — it is abandoned after the login attempt (and
the interval sleep). -/
theorem session_invalid_one_relogin (api : SleepIQApi) (msg err : String)
    (h : strContainsSub err sessionInvalidMarker = true) :
    loginAttemptCount (handleQueryError api msg err).1 = 1
    ∧ (handleQueryError api msg err).2 = !api.loginOk
    ∧ (∀ cfg clock0 e, api.bedsResult = Except.error e →
        strContainsSub e sessionInvalidMarker = true →
        writtenPoints (runCycle api cfg clock0).actions = []
        ∧ loginAttemptCount (runCycle api cfg clock0).actions = 1
        ∧ (runCycle api cfg clock0).fatalStop = !api.loginOk) := by
  refine ⟨?_, ?_, ?_⟩
  · unfold handleQueryError
    cases hl : api.loginOk <;>
      simp [h, hl, loginAttemptCount, isLoginAction]
  · unfold handleQueryError
    cases hl : api.loginOk <;> simp [h, hl]
  · intro cfg clock0 e hb he
    unfold runCycle
    rw [hb]
    cases hl : api.loginOk <;>
      simp [handleQueryError, he, hl, writtenPoints, actionPoint,
        loginAttemptCount, isLoginAction]

/-- Concrete instance of the re-login policy: with a session-invalid
bed-listing error and a failing re-login, exactly one login attempt is
made, no points are written, and the process dies. -/
theorem session_invalid_one_relogin_witness :
    loginAttemptCount (handleQueryError apiSessionBad "m" errSessionText).1 = 1
    ∧ (runCycle apiSessionBad cfgBucketOnly 0).fatalStop = true
    ∧ writtenPoints (runCycle apiSessionBad cfgBucketOnly 0).actions = [] := by
  have h := session_invalid_one_relogin apiSessionBad "m" errSessionText
    (by decide)
  have h2 := h.2.2 cfgBucketOnly 0 errSessionText rfl (by decide)
  refine ⟨h.1, ?_, h2.1⟩
  rw [h2.2.2]
  rfl

/-- C7: boolean source fields (foundation is_moving, sleeper left/right
is-in-bed) are emitted as integer 1 for true and 0 for false via BoolToInt,
and no emitted field of the three point kinds carries a boolean-typed
value. -/
theorem bool_fields_map_to_zero_one (b : Bool) (bed : Bed) (f : Foundation)
    (e : FamilyBed) (w : FootWarmer) (ts : Nat) :
    BoolToInt b = (if b then 1 else 0)
    ∧ (BoolToInt b = 0 ∨ BoolToInt b = 1)
    ∧ (foundationPoint bed f ts).fields.lookup "is_moving"
        = some (FieldValue.intVal (BoolToInt f.isMoving))
    ∧ (sleeperPoint bed e ts).fields.lookup "left_sleeper_is_in_bed"
        = some (FieldValue.intVal (BoolToInt e.leftSide.isInBed))
    ∧ (sleeperPoint bed e ts).fields.lookup "right_sleeper_is_in_bed"
        = some (FieldValue.intVal (BoolToInt e.rightSide.isInBed))
    ∧ (∀ k v, (k, v) ∈ (foundationPoint bed f ts).fields →
        ∀ x : Bool, v ≠ FieldValue.boolVal x)
    ∧ (∀ k v, (k, v) ∈ (sleeperPoint bed e ts).fields →
        ∀ x : Bool, v ≠ FieldValue.boolVal x)
    ∧ (∀ k v, (k, v) ∈ (footwarmersPoint bed w ts).fields →
        ∀ x : Bool, v ≠ FieldValue.boolVal x) := by
  refine ⟨by cases b <;> rfl, by cases b <;> simp [BoolToInt],
    rfl, rfl, rfl, ?_, ?_, ?_⟩
  · intro k v hv x
    simp [foundationPoint] at hv
    rcases hv with ⟨_, hv⟩ | ⟨_, hv⟩ | ⟨_, hv⟩ | ⟨_, hv⟩ | ⟨_, hv⟩ |
      ⟨_, hv⟩ | ⟨_, hv⟩ <;> subst hv <;> simp
  · intro k v hv x
    simp [sleeperPoint] at hv
    rcases hv with ⟨_, hv⟩ | ⟨_, hv⟩ | ⟨_, hv⟩ | ⟨_, hv⟩ | ⟨_, hv⟩ |
      ⟨_, hv⟩ <;> subst hv <;> simp
  · intro k v hv x
    simp [footwarmersPoint] at hv
    rcases hv with ⟨_, hv⟩ | ⟨_, hv⟩ <;> subst hv <;> simp

/-- Witness for C7 on concrete data: is_moving carries the integer 1 and is
not boolean-typed. -/
theorem bool_fields_map_to_zero_one_witness :
    BoolToInt true = 1
    ∧ (foundationPoint bedOne fndOne 5).fields.lookup "is_moving"
        = some (FieldValue.intVal 1)
    ∧ FieldValue.intVal 1 ≠ FieldValue.boolVal true := by
  have h := bool_fields_map_to_zero_one true bedOne fndOne famOne fwmOne 5
  exact ⟨h.1, h.2.2.1,
    h.2.2.2.2.2.1 "is_moving" (FieldValue.intVal 1) (by decide) true⟩

/-- Helper: written points distribute over trace concatenation. -/
theorem writtenPoints_append (a b : List PollAction) :
    writtenPoints (a ++ b) = writtenPoints a ++ writtenPoints b := by
  unfold writtenPoints
  exact List.filterMap_append a b actionPoint

/-- Helper: measurement counts distribute over trace concatenation. -/
theorem countMeasurement_append (m : String) (a b : List PollAction) :
    countMeasurement m (a ++ b)
      = countMeasurement m a + countMeasurement m b := by
  unfold countMeasurement pointsWithMeasurement
  rw [writtenPoints_append, List.filter_append, List.length_append]

/-- Helper: the points written by a trace of pure writePoint actions are the
points themselves. -/
theorem writtenPoints_map (ps : List Point) :
    writtenPoints (ps.map PollAction.writePoint) = ps := by
  induction ps with
  | nil => rfl
  | cons p rest ih =>
      simpa [writtenPoints, List.filterMap_cons, actionPoint] using ih

/-- Helper: every point of the family-status join carries the sleeper
measurement and the shared family timestamp. -/
theorem sleeperPointsFor_forall (bed : Bed) (tsFamily : Nat)
    (familyBeds : List FamilyBed) :
    ∀ p ∈ sleeperPointsFor bed tsFamily familyBeds,
      p.measurement = "bed_sleeper_state" ∧ p.timestamp = tsFamily := by
  induction familyBeds with
  | nil => intro p hp; cases hp
  | cons e rest ih =>
      intro p hp
      unfold sleeperPointsFor at hp
      by_cases he : (e.bedID == bed.bedID) = true
      · rw [if_pos he] at hp
        rcases List.mem_cons.mp hp with h | h
        · subst h; exact ⟨rfl, rfl⟩
        · exact ih p h
      · rw [if_neg he] at hp
        exact ih p hp

/-- Helper: the length of the family-status join equals the number of
matching family-status entries. -/
theorem sleeperPointsFor_length (bed : Bed) (tsFamily : Nat)
    (familyBeds : List FamilyBed) :
    (sleeperPointsFor bed tsFamily familyBeds).length
      = countMatching familyBeds bed.bedID := by
  induction familyBeds with
  | nil => rfl
  | cons e rest ih =>
      unfold sleeperPointsFor countMatching
      unfold countMatching at ih
      rw [List.filter_cons]
      by_cases he : (e.bedID == bed.bedID) = true <;>
        simp [he, ih]

/-- Helper: filtering the join's points for the sleeper measurement keeps
all of them; filtering for a different measurement keeps none. -/
theorem pointsWithMeasurement_sleepers (m : String) (bed : Bed)
    (tsFamily : Nat) (familyBeds : List FamilyBed) :
    pointsWithMeasurement m (sleeperPointsFor bed tsFamily familyBeds)
      = (if m = "bed_sleeper_state"
          then sleeperPointsFor bed tsFamily familyBeds else []) := by
  unfold pointsWithMeasurement
  by_cases hm : m = "bed_sleeper_state"
  · rw [if_pos hm]
    refine List.filter_eq_self.mpr ?_
    intro p hp
    have := (sleeperPointsFor_forall bed tsFamily familyBeds p hp).1
    simp [this, hm]
  · rw [if_neg hm]
    rw [List.filter_eq_nil_iff]
    intro p hp
    have := (sleeperPointsFor_forall bed tsFamily familyBeds p hp).1
    simp [this]
    intro hc
    exact hm hc.symm

/-- C10: the inner family-status join enqueues, for a given device, exactly
one sleeper point per family-status entry whose identifier equals that
device's identifier (no deduplication), both as the join's point list and
as the sleeper-measurement count of the device's success-path trace. -/
theorem sleeper_points_per_matching_entry (bed : Bed) (tsFamily : Nat)
    (familyBeds : List FamilyBed) :
    (sleeperPointsFor bed tsFamily familyBeds).length
      = countMatching familyBeds bed.bedID
    ∧ (∀ api cfg startClock c f w,
        api.foundationResult bed.bedID = Except.ok f →
        api.footWarmerResult bed.bedID = Except.ok w →
        countMeasurement "bed_sleeper_state"
          (processBed api cfg startClock familyBeds tsFamily
            ⟨[], c, false⟩ bed).actions
        = countMatching familyBeds bed.bedID) := by
  refine ⟨sleeperPointsFor_length bed tsFamily familyBeds, ?_⟩
  intro api cfg startClock c f w hf hw
  have hpb : (processBed api cfg startClock familyBeds tsFamily
      ⟨[], c, false⟩ bed).actions
      = [PollAction.writePoint (foundationPoint bed f c),
         PollAction.writePoint (footwarmersPoint bed w (c + 1))] ++
        (sleeperPointsFor bed tsFamily familyBeds).map PollAction.writePoint := by
    unfold processBed
    simp [hf, hw]
  rw [hpb, countMeasurement_append]
  have h1 : countMeasurement "bed_sleeper_state"
      [PollAction.writePoint (foundationPoint bed f c),
       PollAction.writePoint (footwarmersPoint bed w (c + 1))] = 0 := by
    simp [countMeasurement, pointsWithMeasurement, writtenPoints,
      actionPoint, foundationPoint, footwarmersPoint]
  have h2 : countMeasurement "bed_sleeper_state"
      ((sleeperPointsFor bed tsFamily familyBeds).map PollAction.writePoint)
      = countMatching familyBeds bed.bedID := by
    unfold countMeasurement
    rw [writtenPoints_map, pointsWithMeasurement_sleepers]
    rw [if_pos rfl]
    exact sleeperPointsFor_length bed tsFamily familyBeds
  rw [h1, h2]
  omega

/-- C1 counterexample: one listed device with every sub-query succeeding,
but a family-status result whose identifier matches that device twice,
yields two sleeper points — more than the device count N = 1, refuting the
claimed bound of at most N sleeper points per cycle. -/
theorem sleeper_points_can_exceed_device_count :
    apiDupFamily.bedsResult = Except.ok [bedOne]
    ∧ subQueriesOk apiDupFamily [bedOne] = true
    ∧ countMeasurement "bed_foundation_state"
        (runCycle apiDupFamily cfgBucketOnly 0).actions = 1
    ∧ countMeasurement "bed_footwarmers_state"
        (runCycle apiDupFamily cfgBucketOnly 0).actions = 1
    ∧ ¬ (countMeasurement "bed_sleeper_state"
          (runCycle apiDupFamily cfgBucketOnly 0).actions ≤ 1) := by
  refine ⟨rfl, ?_, ?_, ?_, ?_⟩ <;> decide

/-- C3 evaluation at the failing input: with two listed devices and a
failing (non-session) foundation query for the first, the device loop is
not aborted — the Go continue targets the bed loop, so after logging and
sleeping the remaining interval the second device is still fully processed
in the same cycle: one foundation point, one footwarmer point and one
sleeper point are enqueued, and the cycle ends normally. -/
theorem subquery_failure_continues_loop :
    apiFoundationFail.bedsResult = Except.ok [bedOne, bedTwo]
    ∧ apiFoundationFail.foundationResult bedOne.bedID
        = Except.error "remote error"
    ∧ countMeasurement "bed_foundation_state"
        (runCycle apiFoundationFail cfgBucketOnly 0).actions = 1
    ∧ countMeasurement "bed_footwarmers_state"
        (runCycle apiFoundationFail cfgBucketOnly 0).actions = 1
    ∧ countMeasurement "bed_sleeper_state"
        (runCycle apiFoundationFail cfgBucketOnly 0).actions = 1
    ∧ (runCycle apiFoundationFail cfgBucketOnly 0).fatalStop = false := by
  refine ⟨rfl, rfl, ?_, ?_, ?_, ?_⟩ <;> decide

/-- Helper: on the all-success path the device loop appends exactly the
okBedActions trace and advances the clock by two timestamp samples per
bed, never dying. -/
theorem processBeds_ok (api : SleepIQApi) (cfg : Configuration)
    (startClock : Nat) (familyBeds : List FamilyBed) (tsFamily : Nat)
    (beds : List Bed) (acts : List PollAction) (c : Nat)
    (h : subQueriesOk api beds = true) :
    processBeds api cfg startClock familyBeds tsFamily beds ⟨acts, c, false⟩
      = ⟨acts ++ okBedActions api familyBeds tsFamily beds c,
         c + 2 * beds.length, false⟩ := by
  induction beds generalizing acts c with
  | nil => simp [processBeds, okBedActions]
  | cons bed rest ih =>
      unfold subQueriesOk at h
      rw [List.all_cons, Bool.and_eq_true] at h
      obtain ⟨hbed, hrest⟩ := h
      rw [Bool.and_eq_true] at hbed
      obtain ⟨hfB, hwB⟩ := hbed
      cases hf : api.foundationResult bed.bedID with
      | error e => rw [hf] at hfB; simp [okB] at hfB
      | ok f =>
          cases hw : api.footWarmerResult bed.bedID with
          | error e => rw [hw] at hwB; simp [okB] at hwB
          | ok w =>
              have hpb : processBed api cfg startClock familyBeds tsFamily
                  ⟨acts, c, false⟩ bed
                  = ⟨acts ++ ([PollAction.writePoint (foundationPoint bed f c),
                       PollAction.writePoint (footwarmersPoint bed w (c + 1))] ++
                      (sleeperPointsFor bed tsFamily familyBeds).map
                        PollAction.writePoint),
                     c + 2, false⟩ := by
                unfold processBed
                simp [hf, hw]
              rw [show processBeds api cfg startClock familyBeds tsFamily
                  (bed :: rest) ⟨acts, c, false⟩
                = processBeds api cfg startClock familyBeds tsFamily rest
                    (processBed api cfg startClock familyBeds tsFamily
                      ⟨acts, c, false⟩ bed) from rfl]
              rw [hpb, ih _ _ (by unfold subQueriesOk; exact hrest)]
              simp only [okBedActions, hf, hw, LoopSt.mk.injEq,
                List.length_cons]
              refine ⟨?_, ?_, trivial⟩
              · simp [List.append_assoc]
              · omega

/-- Helper: explicit form of a fully successful cycle starting at clock
clock0 — the family timestamp is the second sample (clock0 + 1), the device
loop runs from clock0 + 2, and the cycle ends with the interval sleep. -/
theorem runCycle_ok (api : SleepIQApi) (cfg : Configuration) (clock0 : Nat)
    (beds : List Bed) (familyBeds : List FamilyBed)
    (hb : api.bedsResult = Except.ok beds)
    (hf : api.familyResult = Except.ok familyBeds)
    (hq : subQueriesOk api beds = true) :
    runCycle api cfg clock0
      = ⟨okBedActions api familyBeds (clock0 + 1) beds (clock0 + 2)
           ++ [PollAction.sleepFor
                 (timeRemainingOf cfg.pollInterval (2 + 2 * beds.length))],
         clock0 + 2 + 2 * beds.length
           + sleepDuration
               (timeRemainingOf cfg.pollInterval (2 + 2 * beds.length)),
         false⟩ := by
  unfold runCycle
  simp only [hb, hf]
  rw [processBeds_ok api cfg clock0 familyBeds (clock0 + 1) beds []
    (clock0 + 1 + 1) hq]
  have e1 : clock0 + 1 + 1 + 2 * beds.length - clock0
      = 2 + 2 * beds.length := by omega
  simp only [List.nil_append, e1]
  rfl

/-- Helper: counting over a leading writePoint action whose point has the
counted measurement. -/
theorem countMeasurement_cons_eq (m : String) (p : Point)
    (rest : List PollAction) (h : (p.measurement == m) = true) :
    countMeasurement m (PollAction.writePoint p :: rest)
      = countMeasurement m rest + 1 := by
  unfold countMeasurement pointsWithMeasurement writtenPoints
  rw [List.filterMap_cons]
  simp [actionPoint, List.filter_cons, h]

/-- Helper: counting over a leading writePoint action whose point has a
different measurement. -/
theorem countMeasurement_cons_ne (m : String) (p : Point)
    (rest : List PollAction) (h : (p.measurement == m) = false) :
    countMeasurement m (PollAction.writePoint p :: rest)
      = countMeasurement m rest := by
  unfold countMeasurement pointsWithMeasurement writtenPoints
  rw [List.filterMap_cons]
  simp [actionPoint, List.filter_cons, h]

/-- Helper: counting the sleeper-join chunk of the trace. -/
theorem countMeasurement_sleeper_map (m : String) (bed : Bed)
    (tsFamily : Nat) (familyBeds : List FamilyBed) :
    countMeasurement m
        ((sleeperPointsFor bed tsFamily familyBeds).map PollAction.writePoint)
      = if m = "bed_sleeper_state"
          then countMatching familyBeds bed.bedID else 0 := by
  unfold countMeasurement
  rw [writtenPoints_map, pointsWithMeasurement_sleepers]
  by_cases hm : m = "bed_sleeper_state" <;>
    simp [hm, sleeperPointsFor_length]

/-- Helper: per-measurement counts of the all-success device-loop trace:
one foundation and one footwarmer point per bed, and one sleeper point per
(bed, matching family-status entry) pair. -/
theorem okBedActions_counts (api : SleepIQApi) (familyBeds : List FamilyBed)
    (tsFamily : Nat) (beds : List Bed) (c : Nat)
    (hq : subQueriesOk api beds = true) :
    countMeasurement "bed_foundation_state"
        (okBedActions api familyBeds tsFamily beds c) = beds.length
    ∧ countMeasurement "bed_footwarmers_state"
        (okBedActions api familyBeds tsFamily beds c) = beds.length
    ∧ countMeasurement "bed_sleeper_state"
        (okBedActions api familyBeds tsFamily beds c)
      = sumMatches familyBeds beds := by
  induction beds generalizing c with
  | nil =>
      simp [okBedActions, countMeasurement, pointsWithMeasurement,
        writtenPoints, sumMatches]
  | cons bed rest ih =>
      unfold subQueriesOk at hq
      rw [List.all_cons, Bool.and_eq_true] at hq
      obtain ⟨hbed, hrest⟩ := hq
      rw [Bool.and_eq_true] at hbed
      obtain ⟨hfB, hwB⟩ := hbed
      cases hf : api.foundationResult bed.bedID with
      | error e => rw [hf] at hfB; simp [okB] at hfB
      | ok f =>
      cases hw : api.footWarmerResult bed.bedID with
      | error e => rw [hw] at hwB; simp [okB] at hwB
      | ok w =>
      have hshape : okBedActions api familyBeds tsFamily (bed :: rest) c
          = PollAction.writePoint (foundationPoint bed f c)
            :: PollAction.writePoint (footwarmersPoint bed w (c + 1))
            :: ((sleeperPointsFor bed tsFamily familyBeds).map
                  PollAction.writePoint
                ++ okBedActions api familyBeds tsFamily rest (c + 2)) := by
        conv_lhs => rw [okBedActions]
        rw [hf, hw]
      obtain ⟨i1, i2, i3⟩ := ih (c + 2) (by unfold subQueriesOk; exact hrest)
      rw [hshape]
      have f1 : ((foundationPoint bed f c).measurement
          == "bed_foundation_state") = true := rfl
      have f2 : ((footwarmersPoint bed w (c + 1)).measurement
          == "bed_foundation_state") = false := rfl
      have f3 : ((foundationPoint bed f c).measurement
          == "bed_footwarmers_state") = false := rfl
      have f4 : ((footwarmersPoint bed w (c + 1)).measurement
          == "bed_footwarmers_state") = true := rfl
      have f5 : ((foundationPoint bed f c).measurement
          == "bed_sleeper_state") = false := rfl
      have f6 : ((footwarmersPoint bed w (c + 1)).measurement
          == "bed_sleeper_state") = false := rfl
      have g1 : ("bed_foundation_state" : String) ≠ "bed_sleeper_state" := by
        decide
      have g2 : ("bed_footwarmers_state" : String) ≠ "bed_sleeper_state" := by
        decide
      have hsleq : ("bed_sleeper_state" : String) = "bed_sleeper_state" := rfl
      refine ⟨?_, ?_, ?_⟩
      · rw [countMeasurement_cons_eq _ _ _ f1, countMeasurement_cons_ne _ _ _ f2,
          countMeasurement_append, countMeasurement_sleeper_map, i1,
          if_neg g1]
        simp only [List.length_cons]
        omega
      · rw [countMeasurement_cons_ne _ _ _ f3, countMeasurement_cons_eq _ _ _ f4,
          countMeasurement_append, countMeasurement_sleeper_map, i2,
          if_neg g2]
        simp only [List.length_cons]
        omega
      · rw [countMeasurement_cons_ne _ _ _ f5, countMeasurement_cons_ne _ _ _ f6,
          countMeasurement_append, countMeasurement_sleeper_map, i3,
          if_pos hsleq]
        simp only [sumMatches, List.map_cons, List.sum_cons]

/-- Helper: when family-status identifiers are pairwise distinct, at most
one entry matches any identifier. -/
theorem countMatching_le_one (familyBeds : List FamilyBed) (id : String)
    (h : familyBeds.Pairwise (fun a b => a.bedID ≠ b.bedID)) :
    countMatching familyBeds id ≤ 1 := by
  induction familyBeds with
  | nil => simp [countMatching]
  | cons e rest ih =>
      rw [List.pairwise_cons] at h
      obtain ⟨h1, h2⟩ := h
      unfold countMatching
      rw [List.filter_cons]
      by_cases he : (e.bedID == id) = true
      · rw [if_pos he]
        have hz : rest.filter (fun x => x.bedID == id) = [] := by
          rw [List.filter_eq_nil_iff]
          intro b hb hbeq
          rw [beq_iff_eq] at hbeq he
          exact h1 b hb (by rw [he, hbeq])
        rw [hz]
        simp
      · rw [if_neg he]
        exact ih h2

/-- Helper: when each listed bed matches at most one family-status entry,
the total sleeper-point count is at most the device count. -/
theorem sumMatches_le_length (familyBeds : List FamilyBed) (beds : List Bed)
    (h : ∀ bed ∈ beds, countMatching familyBeds bed.bedID ≤ 1) :
    sumMatches familyBeds beds ≤ beds.length := by
  induction beds with
  | nil => simp [sumMatches]
  | cons bed rest ih =>
      have h1 := h bed (by simp)
      have h2 : sumMatches familyBeds rest ≤ rest.length :=
        ih (fun b hb => h b (by simp [hb]))
      simp only [sumMatches, List.map_cons, List.sum_cons, List.length_cons]
      unfold sumMatches at h2
      omega

/-- C1 (amended): in a cycle whose device listing returns the given beds and
whose family status and every per-device sub-query succeed, exactly one
foundation point and one footwarmer point are enqueued per device (2N points
for N devices), and exactly one sleeper point per (device, matching
family-status entry) pair — at most N sleeper points whenever the
family-status identifiers are pairwise distinct, and none for a device
without a matching entry. -/
theorem cycle_point_counts (api : SleepIQApi) (cfg : Configuration)
    (clock0 : Nat) (beds : List Bed) (familyBeds : List FamilyBed)
    (hb : api.bedsResult = Except.ok beds)
    (hf : api.familyResult = Except.ok familyBeds)
    (hq : subQueriesOk api beds = true) :
    countMeasurement "bed_foundation_state"
        (runCycle api cfg clock0).actions = beds.length
    ∧ countMeasurement "bed_footwarmers_state"
        (runCycle api cfg clock0).actions = beds.length
    ∧ countMeasurement "bed_sleeper_state"
        (runCycle api cfg clock0).actions = sumMatches familyBeds beds
    ∧ (familyBeds.Pairwise (fun a b => a.bedID ≠ b.bedID) →
        countMeasurement "bed_sleeper_state"
          (runCycle api cfg clock0).actions ≤ beds.length) := by
  rw [runCycle_ok api cfg clock0 beds familyBeds hb hf hq]
  obtain ⟨k1, k2, k3⟩ :=
    okBedActions_counts api familyBeds (clock0 + 1) beds (clock0 + 2) hq
  have hs : ∀ m : String, countMeasurement m
      [PollAction.sleepFor
        (timeRemainingOf cfg.pollInterval (2 + 2 * beds.length))] = 0 := by
    intro m
    simp [countMeasurement, pointsWithMeasurement, writtenPoints, actionPoint]
  refine ⟨?_, ?_, ?_, ?_⟩
  · rw [countMeasurement_append, k1, hs]
    omega
  · rw [countMeasurement_append, k2, hs]
    omega
  · rw [countMeasurement_append, k3, hs]
    omega
  · intro hpw
    rw [countMeasurement_append, k3, hs]
    have := sumMatches_le_length familyBeds beds
      (fun bed _ => countMatching_le_one familyBeds bed.bedID hpw)
    omega

/-- Witness for C1 on two devices with one matching family entry each:
two foundation points, two footwarmer points, two sleeper points. -/
theorem cycle_point_counts_witness :
    countMeasurement "bed_foundation_state"
        (runCycle apiTwoBeds cfgBucketOnly 0).actions = 2
    ∧ countMeasurement "bed_footwarmers_state"
        (runCycle apiTwoBeds cfgBucketOnly 0).actions = 2
    ∧ countMeasurement "bed_sleeper_state"
        (runCycle apiTwoBeds cfgBucketOnly 0).actions ≤ 2 := by
  have h := cycle_point_counts apiTwoBeds cfgBucketOnly 0 [bedOne, bedTwo]
    [famOne, famTwo] rfl rfl (by decide)
  refine ⟨h.1, h.2.1, ?_⟩
  have := h.2.2.2 (by decide)
  simpa using this

/-- Helper: every timestamp sampled by the device loop started at clock c is
at least c. -/
theorem tsList_lb (beds : List Bed) (c : Nat) :
    ∀ t ∈ tsList beds c, c ≤ t := by
  induction beds generalizing c with
  | nil => intro t ht; cases ht
  | cons bed rest ih =>
      intro t ht
      rcases List.mem_cons.mp ht with h | ht2
      · omega
      rcases List.mem_cons.mp ht2 with h | h3
      · omega
      · have := ih (c + 2) t h3
        omega

/-- Helper: the device-loop timestamps are strictly increasing. -/
theorem tsList_chain (beds : List Bed) (c : Nat) :
    List.Chain' (fun a b => a < b) (tsList beds c) := by
  induction beds generalizing c with
  | nil => simp [tsList]
  | cons bed rest ih =>
      rw [tsList]
      cases hr : tsList rest (c + 2) with
      | nil =>
          rw [List.chain'_cons]
          exact ⟨by omega, List.chain'_singleton _⟩
      | cons t ts =>
          have hlb := tsList_lb rest (c + 2) t (by rw [hr]; simp)
          have hch := ih (c + 2)
          rw [hr] at hch
          rw [List.chain'_cons, List.chain'_cons]
          exact ⟨by omega, by omega, hch⟩

/-- Helper: the points written by the all-success device loop for the first
bed followed by the rest. -/
theorem okBedActions_written (api : SleepIQApi) (familyBeds : List FamilyBed)
    (tsFamily : Nat) (bed : Bed) (rest : List Bed) (c : Nat)
    (f : Foundation) (w : FootWarmer)
    (hf : api.foundationResult bed.bedID = Except.ok f)
    (hw : api.footWarmerResult bed.bedID = Except.ok w) :
    writtenPoints (okBedActions api familyBeds tsFamily (bed :: rest) c)
      = foundationPoint bed f c :: footwarmersPoint bed w (c + 1)
        :: (sleeperPointsFor bed tsFamily familyBeds
            ++ writtenPoints
                 (okBedActions api familyBeds tsFamily rest (c + 2))) := by
  have hshape : okBedActions api familyBeds tsFamily (bed :: rest) c
      = PollAction.writePoint (foundationPoint bed f c)
        :: PollAction.writePoint (footwarmersPoint bed w (c + 1))
        :: ((sleeperPointsFor bed tsFamily familyBeds).map
              PollAction.writePoint
            ++ okBedActions api familyBeds tsFamily rest (c + 2)) := by
    conv_lhs => rw [okBedActions]
    rw [hf, hw]
  rw [hshape]
  unfold writtenPoints
  rw [List.filterMap_cons, List.filterMap_cons, List.filterMap_append]
  have hmap : (((sleeperPointsFor bed tsFamily familyBeds).map
      PollAction.writePoint).filterMap actionPoint)
      = sleeperPointsFor bed tsFamily familyBeds := writtenPoints_map _
  rw [hmap]
  rfl

/-- Helper: every sleeper-measurement point of the all-success device loop
carries the shared family timestamp. -/
theorem okBedActions_sleeper_ts (api : SleepIQApi)
    (familyBeds : List FamilyBed) (tsFamily : Nat) (beds : List Bed)
    (c : Nat) (hq : subQueriesOk api beds = true) :
    ∀ p ∈ writtenPoints (okBedActions api familyBeds tsFamily beds c),
      p.measurement = "bed_sleeper_state" → p.timestamp = tsFamily := by
  induction beds generalizing c with
  | nil => intro p hp; cases hp
  | cons bed rest ih =>
      unfold subQueriesOk at hq
      rw [List.all_cons, Bool.and_eq_true] at hq
      obtain ⟨hbed, hrest⟩ := hq
      rw [Bool.and_eq_true] at hbed
      obtain ⟨hfB, hwB⟩ := hbed
      cases hf : api.foundationResult bed.bedID with
      | error e => rw [hf] at hfB; simp [okB] at hfB
      | ok f =>
      cases hw : api.footWarmerResult bed.bedID with
      | error e => rw [hw] at hwB; simp [okB] at hwB
      | ok w =>
      intro p hp hm
      rw [okBedActions_written api familyBeds tsFamily bed rest c f w hf hw]
        at hp
      rcases List.mem_cons.mp hp with h | hp2
      · subst h
        rw [show (foundationPoint bed f c).measurement
          = "bed_foundation_state" from rfl] at hm
        exact absurd hm (by decide)
      rcases List.mem_cons.mp hp2 with h | hp3
      · subst h
        rw [show (footwarmersPoint bed w (c + 1)).measurement
          = "bed_footwarmers_state" from rfl] at hm
        exact absurd hm (by decide)
      rcases List.mem_append.mp hp3 with h | h
      · exact (sleeperPointsFor_forall bed tsFamily familyBeds p h).2
      · exact ih (c + 2) (by unfold subQueriesOk; exact hrest) p h hm

/-- Helper: the timestamps of the non-sleeper (foundation and footwarmer)
points of the all-success device loop are exactly the per-device fresh
samples, in order. -/
theorem okBedActions_nonsleeper_ts (api : SleepIQApi)
    (familyBeds : List FamilyBed) (tsFamily : Nat) (beds : List Bed)
    (c : Nat) (hq : subQueriesOk api beds = true) :
    ((writtenPoints (okBedActions api familyBeds tsFamily beds c)).filter
        (fun p => p.measurement != "bed_sleeper_state")).map Point.timestamp
      = tsList beds c := by
  induction beds generalizing c with
  | nil => rfl
  | cons bed rest ih =>
      unfold subQueriesOk at hq
      rw [List.all_cons, Bool.and_eq_true] at hq
      obtain ⟨hbed, hrest⟩ := hq
      rw [Bool.and_eq_true] at hbed
      obtain ⟨hfB, hwB⟩ := hbed
      cases hf : api.foundationResult bed.bedID with
      | error e => rw [hf] at hfB; simp [okB] at hfB
      | ok f =>
      cases hw : api.footWarmerResult bed.bedID with
      | error e => rw [hw] at hwB; simp [okB] at hwB
      | ok w =>
      rw [okBedActions_written api familyBeds tsFamily bed rest c f w hf hw]
      have hsl : (sleeperPointsFor bed tsFamily familyBeds).filter
          (fun p => p.measurement != "bed_sleeper_state") = [] := by
        rw [List.filter_eq_nil_iff]
        intro p hp
        have hm := (sleeperPointsFor_forall bed tsFamily familyBeds p hp).1
        simp [hm]
      rw [List.filter_cons, List.filter_cons, List.filter_append, hsl]
      have hf1 : ((foundationPoint bed f c).measurement
          != "bed_sleeper_state") = true := rfl
      have hf2 : ((footwarmersPoint bed w (c + 1)).measurement
          != "bed_sleeper_state") = true := rfl
      rw [if_pos hf1, if_pos hf2]
      rw [List.nil_append, List.map_cons, List.map_cons,
        ih (c + 2) (by unfold subQueriesOk; exact hrest)]
      rfl

/-- C8: in a fully successful cycle started at clock0, a single family
timestamp (the sample taken right after the familyStatus call, clock0 + 1)
is carried by every sleeper point of the cycle, while the foundation and
footwarmer points carry their own, pairwise distinct, strictly increasing
timestamps, each sampled after its own per-device sub-query and hence after
the family timestamp. -/
theorem timestamp_sharing (api : SleepIQApi) (cfg : Configuration)
    (clock0 : Nat) (beds : List Bed) (familyBeds : List FamilyBed)
    (hb : api.bedsResult = Except.ok beds)
    (hf : api.familyResult = Except.ok familyBeds)
    (hq : subQueriesOk api beds = true) :
    (∀ p ∈ writtenPoints (runCycle api cfg clock0).actions,
        p.measurement = "bed_sleeper_state" → p.timestamp = clock0 + 1)
    ∧ ((writtenPoints (runCycle api cfg clock0).actions).filter
          (fun p => p.measurement != "bed_sleeper_state")).map Point.timestamp
        = tsList beds (clock0 + 2)
    ∧ List.Chain' (fun a b => a < b)
        (((writtenPoints (runCycle api cfg clock0).actions).filter
            (fun p => p.measurement != "bed_sleeper_state")).map
          Point.timestamp)
    ∧ (∀ p ∈ writtenPoints (runCycle api cfg clock0).actions,
        ¬ p.measurement = "bed_sleeper_state" →
          clock0 + 1 < p.timestamp) := by
  have hact : (runCycle api cfg clock0).actions
      = okBedActions api familyBeds (clock0 + 1) beds (clock0 + 2)
        ++ [PollAction.sleepFor
              (timeRemainingOf cfg.pollInterval (2 + 2 * beds.length))] := by
    rw [runCycle_ok api cfg clock0 beds familyBeds hb hf hq]
  have hw2 : writtenPoints
        (okBedActions api familyBeds (clock0 + 1) beds (clock0 + 2)
          ++ [PollAction.sleepFor
                (timeRemainingOf cfg.pollInterval (2 + 2 * beds.length))])
      = writtenPoints
          (okBedActions api familyBeds (clock0 + 1) beds (clock0 + 2)) := by
    rw [writtenPoints_append]
    simp [writtenPoints, actionPoint]
  refine ⟨?_, ?_, ?_, ?_⟩
  · intro p hp hm
    rw [hact, hw2] at hp
    exact okBedActions_sleeper_ts api familyBeds (clock0 + 1) beds
      (clock0 + 2) hq p hp hm
  · rw [hact, hw2]
    exact okBedActions_nonsleeper_ts api familyBeds (clock0 + 1) beds
      (clock0 + 2) hq
  · rw [hact, hw2, okBedActions_nonsleeper_ts api familyBeds (clock0 + 1)
      beds (clock0 + 2) hq]
    exact tsList_chain beds (clock0 + 2)
  · intro p hp hm
    rw [hact, hw2] at hp
    have hpf : p ∈ (writtenPoints
        (okBedActions api familyBeds (clock0 + 1) beds (clock0 + 2))).filter
          (fun p => p.measurement != "bed_sleeper_state") := by
      rw [List.mem_filter]
      exact ⟨hp, by simpa using hm⟩
    have hts : p.timestamp ∈ tsList beds (clock0 + 2) := by
      rw [← okBedActions_nonsleeper_ts api familyBeds (clock0 + 1) beds
        (clock0 + 2) hq]
      exact List.mem_map_of_mem Point.timestamp hpf
    have := tsList_lb beds (clock0 + 2) p.timestamp hts
    omega

/-- Witness for C8: on the two-device run, the sleeper point of the first
device carries the shared family timestamp clock0 + 1 = 1, and the
foundation/footwarmer timestamps are the fresh samples 2, 3, 4, 5. -/
theorem timestamp_sharing_witness :
    (sleeperPoint bedOne famOne 1).timestamp = 0 + 1
    ∧ ((writtenPoints (runCycle apiTwoBeds cfgBucketOnly 0).actions).filter
          (fun p => p.measurement != "bed_sleeper_state")).map Point.timestamp
        = tsList [bedOne, bedTwo] (0 + 2) := by
  have h := timestamp_sharing apiTwoBeds cfgBucketOnly 0 [bedOne, bedTwo]
    [famOne, famTwo] rfl rfl (by decide)
  exact ⟨h.1 (sleeperPoint bedOne famOne 1) (by decide) rfl, h.2.1⟩

/-- Witness for C10: a family status with two entries matching bedOne
yields exactly two sleeper points for that device. -/
theorem sleeper_points_per_matching_entry_witness :
    (sleeperPointsFor bedOne 1 [famOne, famOneDup]).length = 2
    ∧ countMeasurement "bed_sleeper_state"
        (processBed apiDupFamily cfgBucketOnly 0 [famOne, famOneDup] 1
          ⟨[], 2, false⟩ bedOne).actions = 2 := by
  have h := sleeper_points_per_matching_entry bedOne 1 [famOne, famOneDup]
  have h2 := h.2 apiDupFamily cfgBucketOnly 0 2 fndOne fwmOne rfl rfl
  refine ⟨?_, ?_⟩
  · rw [h.1]
    decide
  · rw [h2]
    decide

/-- C2 evaluation at the failing input: a session-invalid foundation error
for the first of two devices triggers its single re-login, but the current
cycle is not abandoned afterwards — the second device's foundation,
footwarmer and sleeper points are still enqueued in the same cycle; and
when both devices' foundation queries fail with session-invalid errors, the
cycle makes two re-login attempts, not one. -/
theorem session_invalid_relogin_without_abandonment :
    loginAttemptCount
        (runCycle apiSessionFoundation cfgBucketOnly 0).actions = 1
    ∧ countMeasurement "bed_foundation_state"
        (runCycle apiSessionFoundation cfgBucketOnly 0).actions = 1
    ∧ countMeasurement "bed_footwarmers_state"
        (runCycle apiSessionFoundation cfgBucketOnly 0).actions = 1
    ∧ countMeasurement "bed_sleeper_state"
        (runCycle apiSessionFoundation cfgBucketOnly 0).actions = 1
    ∧ (runCycle apiSessionFoundation cfgBucketOnly 0).fatalStop = false
    ∧ loginAttemptCount
        (runCycle apiSessionBothBeds cfgBucketOnly 0).actions = 2 := by
  refine ⟨?_, ?_, ?_, ?_, ?_, ?_⟩ <;> decide
